import Mathlib

/-!
Verification development for the bonfire-mvp backend (src/backend/app).

The Python route handlers are shallowly embedded as pure Lean functions over
an explicit database state `DB`.  Every request handler receives the current
committed database and either returns the database as committed at the end of
the request together with the HTTP response payload (`Except.ok`), or an
`ApiError` naming the exception site (`Except.error`).  An error means the
SQLAlchemy session from `database.get_session` is dropped without `commit`,
so the committed state is unchanged — this is how rollback-on-failure is
modelled.

Monetary amounts (Python `float` request fields and columns) are carried as
rationals `Rat` inside the handlers; the concrete amounts in the spec's
scenarios are exact in both representations, and for claims that only
compare, guard, or move money linearly this model neither adds nor removes
behaviour.  The store-level numeric representation does matter for the audit
ledger: `Transaction.amount` and `Transaction.balance_after` are
`Numeric(10, 2)` columns, rounded to whole cents when a row is committed,
while `Wallet.balance` is an unrounded double-precision float column — this
column coercion is modelled explicitly by `numeric2` / `committedDB` below.
Timestamp columns (`created_at`, `updated_at`, `submitted_at`, `vaulted_at`)
carry no information any claim depends on and are omitted from the record
types.
-/

namespace Bonfire

/-- A Python/JSON value, as stored in the `item_data` / `transaction_data`
JSON columns.  Python `dict`s are association lists with distinct keys;
lookups take the first binding. -/
inductive PyVal where
  | none
  | bool (b : Bool)
  | int (n : Int)
  | float (q : Rat)
  | str (s : String)
  | list (xs : List PyVal)
  | dict (kvs : List (String × PyVal))

/-- Python truthiness: `None`, `False`, zero, and empty strings/containers
are falsy, everything else is truthy. -/
def truthy : PyVal → Bool
  | .none => false
  | .bool b => b
  | .int n => n != 0
  | .float q => q != 0
  | .str s => s ≠ ""
  | .list xs => !xs.isEmpty
  | .dict kvs => !kvs.isEmpty

/-- `isinstance(v, dict)`. -/
def isDict : PyVal → Bool
  | .dict _ => true
  | _ => false

/-- `d.get(k)` for a dict value; `Option.none` when the key is absent or the
value is not a dict. -/
def dictLookup (v : PyVal) (k : String) : Option PyVal :=
  match v with
  | .dict kvs => kvs.lookup k
  | _ => Option.none

/-- `d.get(k, dflt)`. -/
def dictGet (v : PyVal) (k : String) (dflt : PyVal) : PyVal :=
  (dictLookup v k).getD dflt

/-- Digits-only decimal parse used by `parsePyFloat`. -/
def decDigits : List Char → Option Nat
  | [] => Option.some 0
  | c :: cs =>
    if c.isDigit then
      (decDigits cs).map (fun rest => (c.toNat - 48) * 10 ^ cs.length + rest)
    else Option.none

/-- Python `float(s)` on a string, for the plain decimal literal forms
`[+-]digits`, `[+-]digits.digits`, `[+-].digits`, `[+-]digits.` (surrounding
whitespace stripped).  Exotic accepted forms (exponents, `inf`, `nan`,
underscores) are not modelled; on every other string `float` raises
`ValueError`, modelled as `Option.none`. -/
def parsePyFloat (s : String) : Option Rat :=
  let t := s.trim
  let (sign, body) : Rat × String :=
    if t.startsWith "-" then (-1, t.drop 1)
    else if t.startsWith "+" then (1, t.drop 1)
    else (1, t)
  match body.splitOn "." with
  | [ip] =>
    if ip.isEmpty then Option.none
    else (decDigits ip.toList).map (fun n => sign * n)
  | [ip, fp] =>
    if ip.isEmpty && fp.isEmpty then Option.none
    else
      match decDigits ip.toList, decDigits fp.toList with
      | Option.some i, Option.some f =>
          Option.some (sign * ((i : Rat) + (f : Rat) / 10 ^ fp.length))
      | _, _ => Option.none
  | _ => Option.none

/-- Python `float(v)`: defined on ints, floats, bools and numeric strings;
raises (`Option.none`) on `None`, lists, dicts and non-numeric strings. -/
def pyFloat : PyVal → Option Rat
  | .int n => Option.some n
  | .float q => Option.some q
  | .bool b => Option.some (if b then 1 else 0)
  | .str s => parsePyFloat s
  | _ => Option.none

/-- Item lifecycle status (`models.Status`). -/
inductive Status where
  | pending
  | authenticating
  | authenticated
  | vaulted
  | rejected
  | trading
deriving DecidableEq

/-- Transaction kind (`models.TransactionType`).  The enum in `models.py`
defines exactly these three members. -/
inductive TransactionType where
  | trade
  | deposit
  | withdraw
deriving DecidableEq

/-- Python attribute lookup on the `TransactionType` enum class: defined
members resolve to their value; any other attribute name (in particular
`SUBMIT` and `REDEEM`, which `routers/inventory.py` uses) raises
`AttributeError` at runtime, modelled as `Option.none`. -/
def TransactionType.attr : String → Option TransactionType
  | "TRADE" => Option.some .trade
  | "DEPOSIT" => Option.some .deposit
  | "WITHDRAW" => Option.some .withdraw
  | _ => Option.none

/-- A row of the `inventory` table (`models.Inventory`). -/
structure Inventory where
  id : Int
  user_id : String
  name : String
  image_url : Option String
  status : Status
  collectible_type : Option String
  external_id : Option String
  external_api : Option String
  item_data : Option PyVal
  notes : Option String

/-- A row of the `wallets` table (`models.Wallet`). -/
structure Wallet where
  user_id : String
  balance : Rat

/-- A row of the `transactions` table (`models.Transaction`). -/
structure Transaction where
  user_id : String
  transaction_type : TransactionType
  description : String
  amount : Rat
  balance_after : Rat
  transaction_data : Option PyVal

/-- The committed database state.  `nextItemId` models the primary-key
sequence that assigns ids to freshly inserted inventory rows at commit. -/
structure DB where
  inventory : List Inventory
  wallets : List Wallet
  transactions : List Transaction
  nextItemId : Int

/-- The empty initial database. -/
def initDB : DB := { inventory := [], wallets := [], transactions := [], nextItemId := 0 }

/-- One constructor per distinct exception site in the route handlers. -/
inductive ApiError where
  /-- 400: empty swap (`trade.atomic_swap`). -/
  | noopSwap
  /-- 400: negative money amount (`trade.atomic_swap`). -/
  | negativeMoney
  /-- 404: some referenced item is missing or owned by another user. -/
  | notFoundOrNotOwned
  /-- 400: `wallet.balance < give_money` / `< amount`. -/
  | insufficientBalance
  /-- 500: unhandled `float()` conversion error on a stored card value. -/
  | floatError
  /-- 500: `scalar_one_or_none` found several wallet rows for one user. -/
  | multipleResults
  /-- 400: non-positive deposit/withdraw amount. -/
  | nonPositiveAmount
  /-- 400: unparsable id in the `item_ids` query string. -/
  | invalidIdFormat
  /-- 400: empty parsed id list. -/
  | noIdsProvided
  /-- 500: unhandled `AttributeError` for a missing enum member. -/
  | attributeError (member : String)
  /-- 500: any exception inside the redeem try-block, re-raised as
  "Failed to redeem items". -/
  | redeemFailed
deriving DecidableEq

/-- HTTP status code surfaced to the client for each error. -/
def ApiError.statusCode : ApiError → Nat
  | .noopSwap => 400
  | .negativeMoney => 400
  | .notFoundOrNotOwned => 404
  | .insufficientBalance => 400
  | .floatError => 500
  | .multipleResults => 500
  | .nonPositiveAmount => 400
  | .invalidIdFormat => 400
  | .noIdsProvided => 400
  | .attributeError _ => 500
  | .redeemFailed => 500

/-- Two-decimal money formatting, Python's `f"{x:.2f}"` for the in-range
amounts handled here (used only inside human-readable descriptions). -/
def fmt2 (q : Rat) : String :=
  let cents : Int := round (q * 100)
  let sign := if cents < 0 then "-" else ""
  let a := cents.natAbs
  let frac := a % 100
  let fracStr := if frac < 10 then "0" ++ toString frac else toString frac
  sign ++ toString (a / 100) ++ "." ++ fracStr

/-- The `WHERE Inventory.id IN ids AND Inventory.user_id == user_id` filter
shared by `trade.atomic_swap` and `inventory.delete_inventory_items`. -/
def matchesOwned (uid : String) (ids : List Int) (it : Inventory) : Bool :=
  ids.contains it.id && it.user_id == uid

/-- `SELECT` of the items being given/redeemed: exactly the rows matching
the ids and owned by the caller. -/
def fetchOwned (db : DB) (uid : String) (ids : List Int) : List Inventory :=
  db.inventory.filter (matchesOwned uid ids)

/-- `get_wallet(session, user_id)` (wallet/trade/inventory routers): select
the wallet row for `uid` via `scalar_one_or_none`; if absent, add a fresh
row with balance 0 to the session.  Whether the helper commits immediately
(`commit=True`) or leaves the insert for the surrounding unit is immaterial
in this committed-state model.  Several rows for one user raise
`MultipleResultsFound`. -/
def get_wallet (ws : List Wallet) (uid : String) : Except ApiError (List Wallet × Wallet) :=
  match ws.filter (fun w => w.user_id == uid) with
  | [] => .ok (ws ++ [{ user_id := uid, balance := 0 }], { user_id := uid, balance := 0 })
  | [w] => .ok (ws, w)
  | _ => .error .multipleResults

/-- Write the mutated balance of the (unique) wallet row of `uid` back into
the table, row by row. -/
def setBalance : List Wallet → String → Rat → List Wallet
  | [], _, _ => []
  | w :: ws, uid, b =>
    (if w.user_id == uid then { w with balance := b } else w) :: setBalance ws uid b

/-- The balance the handlers observe for `uid`: the selected wallet row's
balance, or 0 for the freshly created row when none exists. -/
def walletBalance (ws : List Wallet) (uid : String) : Rat :=
  match ws.filter (fun w => w.user_id == uid) with
  | w :: _ => w.balance
  | [] => 0

/-- The `{name, value, image_url}` snapshot stored in audit records. -/
structure ItemDetail where
  name : String
  value : Rat
  image_url : Option String

/-- Declared-value extraction, duplicated verbatim in `trade.atomic_swap`,
`inventory.create_inventory_items` and `inventory.delete_inventory_items`:

    card_value = 0.0
    if blob and isinstance(blob, dict):
        card_value = blob.get("market_price", 0.0) or 0.0
    ... float(card_value)

The final `float(...)` raises on a truthy non-numeric stored value; that
unhandled exception is `ApiError.floatError`. -/
def cardValue (blob : Option PyVal) : Except ApiError Rat :=
  let cv : PyVal :=
    match blob with
    | Option.some d =>
      if truthy d && isDict d then
        let v := dictGet d "market_price" (.float 0)
        if truthy v then v else .float 0
      else .float 0
    | Option.none => .float 0
  match pyFloat cv with
  | Option.some q => .ok q
  | Option.none => .error .floatError

/-- Snapshot `{name, value, image_url}` for each fetched inventory row, in
order; the first conversion failure aborts the handler. -/
def snapshotDetails : List Inventory → Except ApiError (List ItemDetail)
  | [] => .ok []
  | it :: rest =>
    match cardValue it.item_data with
    | .error e => .error e
    | .ok v =>
      match snapshotDetails rest with
      | .error e => .error e
      | .ok ds => .ok ({ name := it.name, value := v, image_url := it.image_url } :: ds)

private def detailPy (d : ItemDetail) : PyVal :=
  .dict [("name", .str d.name), ("value", .float d.value),
         ("image_url", d.image_url.elim .none .str)]

/-- `trade.ReceiveItem` request model. -/
structure ReceiveItem where
  external_id : Option String
  name : String
  image_url : Option String
  item_data : Option PyVal

/-- `trade.SwapRequest` request model. -/
structure SwapRequest where
  give_items : List Int
  receive_items : List ReceiveItem
  give_money : Rat
  receive_money : Rat

/-- `trade.SwapResponse` response model. -/
structure SwapResponse where
  message : String
  removed_items_count : Nat
  added_items_count : Nat
  wallet_balance : Rat

/-- Step 1 of `atomic_swap`: skip when no items are given; otherwise fetch
the owned rows, reject on a count mismatch, and snapshot the details of the
rows marked for deletion.  Returns the snapshots and `removed_count`. -/
def give_phase (db : DB) (uid : String) (req : SwapRequest) :
    Except ApiError (List ItemDetail × Nat) :=
  if req.give_items.isEmpty then .ok ([], 0)
  else
    let items_to_remove := fetchOwned db uid req.give_items
    if items_to_remove.length ≠ req.give_items.length then .error .notFoundOrNotOwned
    else
      match snapshotDetails items_to_remove with
      | .error e => .error e
      | .ok ds => .ok (ds, items_to_remove.length)

/-- Step 2 of `atomic_swap`: snapshot each received item's details. -/
def receiveDetails : List ReceiveItem → Except ApiError (List ItemDetail)
  | [] => .ok []
  | ri :: rest =>
    match cardValue ri.item_data with
    | .error e => .error e
    | .ok v =>
      match receiveDetails rest with
      | .error e => .error e
      | .ok ds => .ok ({ name := ri.name, value := v, image_url := ri.image_url } :: ds)

/-- The inventory rows inserted by step 2 of `atomic_swap`: one `VAULTED`
row per received item, owned by the acting user, collectible type defaulted
to `"card"`, external source tagged `"pokemon-tcg"` when an external id is
present.  Ids come from the primary-key sequence at commit. -/
def newItemsOf (db : DB) (uid : String) (req : SwapRequest) : List Inventory :=
  req.receive_items.enum.map (fun p =>
    { id := db.nextItemId + p.1
      user_id := uid
      name := p.2.name
      image_url := p.2.image_url
      status := Status.vaulted
      collectible_type := Option.some "card"
      external_id := p.2.external_id
      external_api := if p.2.external_id.isSome then Option.some "pokemon-tcg" else Option.none
      item_data := p.2.item_data
      notes := Option.none })

/-- The inventory table after the given rows are deleted: every row not
matched by the ownership filter survives. -/
def removeGiven (db : DB) (uid : String) (req : SwapRequest) : List Inventory :=
  db.inventory.filter (fun it => !(matchesOwned uid req.give_items it))

/-- Step 3 of `atomic_swap`: re-read (or create) the wallet inside the unit,
enforce `wallet.balance >= give_money` when `give_money > 0`, and apply the
balance delta.  Returns the updated wallet table and the new balance. -/
def money_phase (ws : List Wallet) (uid : String) (g r : Rat) :
    Except ApiError (List Wallet × Rat) :=
  match get_wallet ws uid with
  | .error e => .error e
  | .ok (ws1, w) =>
    if g > 0 then
      if w.balance < g then .error .insufficientBalance
      else
        let b1 := w.balance - g
        let b2 := if r > 0 then b1 + r else b1
        .ok (setBalance ws1 uid b2, b2)
    else
      let b2 := if r > 0 then w.balance + r else w.balance
      .ok (setBalance ws1 uid b2, b2)

/-- The human-readable description built in step 4 of `atomic_swap`. -/
def swapDescription (removed added : Nat) (g r : Rat) : String :=
  let giveItemsDesc := if removed > 0 then s!"{removed} item(s)" else ""
  let receiveItemsDesc := if added > 0 then s!"{added} item(s)" else ""
  let moneyParts :=
    (if g > 0 then [s!"gave ${fmt2 g}"] else []) ++
    (if r > 0 then [s!"received ${fmt2 r}"] else [])
  let parts :=
    (if giveItemsDesc ≠ "" then [s!"Traded {giveItemsDesc}"] else []) ++
    (if receiveItemsDesc ≠ "" then [s!"for {receiveItemsDesc}"] else []) ++
    (if !moneyParts.isEmpty then ["(" ++ String.intercalate ", " moneyParts ++ ")"] else [])
  if parts.isEmpty then "Trade completed" else String.intercalate " " parts

/-- The `kind=trade` audit record inserted by step 4 of `atomic_swap`. -/
def swapTxn (uid : String) (req : SwapRequest) (gDetails rDetails : List ItemDetail)
    (removed added : Nat) (newBal : Rat) : Transaction :=
  { user_id := uid
    transaction_type := TransactionType.trade
    description := swapDescription removed added req.give_money req.receive_money
    amount := req.receive_money - req.give_money
    balance_after := newBal
    transaction_data := Option.some (.dict
      [("give_items", .list (req.give_items.map .int)),
       ("give_items_details", .list (gDetails.map detailPy)),
       ("receive_items_count", .int added),
       ("receive_items_details", .list (rDetails.map detailPy)),
       ("give_money", .float req.give_money),
       ("receive_money", .float req.receive_money),
       ("removed_items_count", .int removed)]) }

/-- `trade.atomic_swap` (POST /trade/swap): validate the request, fetch and
snapshot the given items, snapshot and build the received items, check and
update the wallet balance, insert the trade transaction, and commit all of
it as one unit.  An error leaves the committed state untouched. -/
def atomic_swap (db : DB) (uid : String) (req : SwapRequest) :
    Except ApiError (DB × SwapResponse) :=
  if req.give_items.isEmpty && req.receive_items.isEmpty
      && decide (req.give_money = 0) && decide (req.receive_money = 0) then
    .error .noopSwap
  else if req.give_money < 0 || req.receive_money < 0 then
    .error .negativeMoney
  else
    match give_phase db uid req with
    | .error e => .error e
    | .ok (gDetails, removed_count) =>
      match receiveDetails req.receive_items with
      | .error e => .error e
      | .ok rDetails =>
        match money_phase db.wallets uid req.give_money req.receive_money with
        | .error e => .error e
        | .ok (wallets2, newBal) =>
          let added_count := req.receive_items.length
          let txn := swapTxn uid req gDetails rDetails removed_count added_count newBal
          .ok ({ inventory := removeGiven db uid req ++ newItemsOf db uid req
                 wallets := wallets2
                 transactions := db.transactions ++ [txn]
                 nextItemId := db.nextItemId + added_count },
               { message := "Swap completed successfully"
                 removed_items_count := removed_count
                 added_items_count := added_count
                 wallet_balance := newBal })

/-- `wallet.deposit` (POST /wallet/deposit): require a positive amount, add
it to the (created-if-absent) wallet, and insert the deposit transaction. -/
def deposit (db : DB) (uid : String) (amount : Rat) : Except ApiError (DB × Rat) :=
  if amount ≤ 0 then .error .nonPositiveAmount
  else
    match get_wallet db.wallets uid with
    | .error e => .error e
    | .ok (ws1, w) =>
      let newBal := w.balance + amount
      let txn : Transaction :=
        { user_id := uid
          transaction_type := TransactionType.deposit
          description := s!"Deposited ${fmt2 amount}"
          amount := amount
          balance_after := newBal
          transaction_data := Option.some (.dict [("amount", .float amount)]) }
      .ok ({ db with
               wallets := setBalance ws1 uid newBal,
               transactions := db.transactions ++ [txn] }, newBal)

/-- `wallet.withdraw` (POST /wallet/withdraw): require a positive amount and
`balance >= amount`, subtract it, and insert the withdraw transaction. -/
def withdraw (db : DB) (uid : String) (amount : Rat) : Except ApiError (DB × Rat) :=
  if amount ≤ 0 then .error .nonPositiveAmount
  else
    match get_wallet db.wallets uid with
    | .error e => .error e
    | .ok (ws1, w) =>
      if w.balance < amount then .error .insufficientBalance
      else
        let newBal := w.balance - amount
        let txn : Transaction :=
          { user_id := uid
            transaction_type := TransactionType.withdraw
            description := s!"Withdrew ${fmt2 amount}"
            amount := -amount
            balance_after := newBal
            transaction_data := Option.some (.dict [("amount", .float amount)]) }
        .ok ({ db with
                 wallets := setBalance ws1 uid newBal,
                 transactions := db.transactions ++ [txn] }, newBal)

/-- `inventory.InventoryItemRequest` request model. -/
structure InventoryItemRequest where
  name : String
  image_url : Option String
  collectible_type : String
  external_id : Option String
  external_api : Option String
  item_data : Option PyVal

/-- The rows inserted by `create_inventory_items`: one `VAULTED` row per
submitted spec, owned by the caller. -/
def createdItemsOf (db : DB) (uid : String) (items : List InventoryItemRequest) :
    List Inventory :=
  items.enum.map (fun p =>
    { id := db.nextItemId + p.1
      user_id := uid
      name := p.2.name
      image_url := p.2.image_url
      status := Status.vaulted
      collectible_type := Option.some p.2.collectible_type
      external_id := p.2.external_id
      external_api := p.2.external_api
      item_data := p.2.item_data
      notes := Option.none })

/-- Snapshot `{name, value, image_url}` for each submitted item spec. -/
def submitDetails : List InventoryItemRequest → Except ApiError (List ItemDetail)
  | [] => .ok []
  | r :: rest =>
    match cardValue r.item_data with
    | .error e => .error e
    | .ok v =>
      match submitDetails rest with
      | .error e => .error e
      | .ok ds => .ok ({ name := r.name, value := v, image_url := r.image_url } :: ds)

/-- `inventory.create_inventory_items` (POST /inventory/items): snapshot and
stage one vaulted row per spec, read the wallet, then build the submission
audit record — whose `transaction_type=TransactionType.SUBMIT` attribute
access raises `AttributeError` (no such enum member), so the handler dies
with 500 before `session.commit()` and nothing is persisted.  The
post-commit confirmation email is fire-and-forget and never affects the
outcome, so it has no footprint in this model. -/
def create_inventory_items (db : DB) (uid : String) (items : List InventoryItemRequest) :
    Except ApiError (DB × List Inventory) :=
  match submitDetails items with
  | .error e => .error e
  | .ok items_details =>
    let created := createdItemsOf db uid items
    match get_wallet db.wallets uid with
    | .error e => .error e
    | .ok (ws1, w) =>
      let _total_value := (items_details.map ItemDetail.value).sum
      let firstName := ((items.map InventoryItemRequest.name).headD "")
      let description :=
        if created.length == 1 then s!"Submitted {firstName} to inventory"
        else s!"Submitted {created.length} item(s) to inventory"
      match TransactionType.attr "SUBMIT" with
      | Option.none => .error (.attributeError "SUBMIT")
      | Option.some tt =>
        let txn : Transaction :=
          { user_id := uid
            transaction_type := tt
            description := description
            amount := 0
            balance_after := w.balance
            transaction_data := Option.some (.dict
              [("items_count", .int created.length),
               ("items_details", .list (items_details.map detailPy))]) }
        .ok ({ inventory := db.inventory ++ created
               wallets := ws1
               transactions := db.transactions ++ [txn]
               nextItemId := db.nextItemId + created.length }, created)

/-- Python `s.split(',')` over the character sequence: maximal runs between
commas, including empty runs. -/
def splitCommaAux : List Char → List Char → List (List Char)
  | [], acc => [acc.reverse]
  | c :: cs, acc =>
    if c = ',' then acc.reverse :: splitCommaAux cs []
    else splitCommaAux cs (c :: acc)

def splitComma (s : String) : List (List Char) := splitCommaAux s.toList []

/-- Whitespace removed by Python `str.strip()`. -/
def pyWhitespace (c : Char) : Bool :=
  c = ' ' || c = '\t' || c = '\n' || c = '\r' || c = '\x0b' || c = '\x0c'

/-- Python `s.strip()`. -/
def stripChars (cs : List Char) : List Char :=
  ((cs.dropWhile pyWhitespace).reverse.dropWhile pyWhitespace).reverse

/-- Python `int(s)` on an already-stripped string: an optional sign followed
by at least one digit; anything else raises `ValueError` (`Option.none`).
(Underscore separators and non-ASCII digits are not modelled.) -/
def parseIntChars : List Char → Option Int
  | [] => Option.none
  | '-' :: cs =>
    if cs.isEmpty then Option.none else (decDigits cs).map (fun n => -(n : Int))
  | '+' :: cs =>
    if cs.isEmpty then Option.none else (decDigits cs).map (fun n => (n : Int))
  | cs => (decDigits cs).map (fun n => (n : Int))

/-- The id parsing at the top of `delete_inventory_items`:
`[int(s.strip()) for s in item_ids.split(',') if s.strip()]`; a `ValueError`
from `int()` yields the 400 invalid-format rejection. -/
def parse_ids (item_ids : String) : Except ApiError (List Int) :=
  let parts := ((splitComma item_ids).map stripChars).filter (fun p => !p.isEmpty)
  match parts.mapM parseIntChars with
  | Option.some ids => .ok ids
  | Option.none => .error .invalidIdFormat

/-- `inventory.delete_inventory_items` (DELETE /inventory/items): parse the
id list, fetch-owned-or-404, snapshot the details, read the wallet, then
inside the try-block build the redemption audit record — whose
`TransactionType.REDEEM` attribute access raises `AttributeError` (no such
enum member); the except-clause rolls the unit back and re-raises 500
"Failed to redeem items", so no row is ever deleted. -/
def delete_inventory_items (db : DB) (uid : String) (item_ids : String) :
    Except ApiError (DB × Nat) :=
  match parse_ids item_ids with
  | .error e => .error e
  | .ok parsed_ids =>
    if parsed_ids.isEmpty then .error .noIdsProvided
    else
      let items := fetchOwned db uid parsed_ids
      if items.length ≠ parsed_ids.length then .error .notFoundOrNotOwned
      else
        match snapshotDetails items with
        | .error e => .error e
        | .ok items_details =>
          match get_wallet db.wallets uid with
          | .error e => .error e
          | .ok (ws1, w) =>
            let firstName := ((items.map Inventory.name).headD "")
            let description :=
              if items.length == 1 then s!"Redeemed {firstName} from inventory"
              else s!"Redeemed {items.length} item(s) from inventory"
            match TransactionType.attr "REDEEM" with
            | Option.none => .error .redeemFailed
            | Option.some tt =>
              let txn : Transaction :=
                { user_id := uid
                  transaction_type := tt
                  description := description
                  amount := 0
                  balance_after := w.balance
                  transaction_data := Option.some (.dict
                    [("items_count", .int items.length),
                     ("items_details", .list (items_details.map detailPy))]) }
              .ok ({ inventory := db.inventory.filter (fun it => !(matchesOwned uid parsed_ids it))
                     wallets := ws1
                     transactions := db.transactions ++ [txn]
                     nextItemId := db.nextItemId }, items.length)

/-- One inbound mutation request. -/
inductive Op where
  | deposit (uid : String) (amount : Rat)
  | withdraw (uid : String) (amount : Rat)
  | swap (uid : String) (req : SwapRequest)
  | submit (uid : String) (items : List InventoryItemRequest)
  | redeem (uid : String) (item_ids : String)

/-- The state committed after a handler runs: the new database on success,
the unchanged one when the session is rolled back. -/
def commitOf {α : Type} (db : DB) : Except ApiError (DB × α) → DB
  | .ok (db', _) => db'
  | .error _ => db

/-- Dispatch one request against the committed state. -/
def applyOp (db : DB) : Op → DB
  | .deposit uid a => commitOf db (deposit db uid a)
  | .withdraw uid a => commitOf db (withdraw db uid a)
  | .swap uid req => commitOf db (atomic_swap db uid req)
  | .submit uid items => commitOf db (create_inventory_items db uid items)
  | .redeem uid ids => commitOf db (delete_inventory_items db uid ids)

/-- The state reached from the empty database by a sequence of requests. -/
def run (ops : List Op) : DB := ops.foldl applyOp initDB

/-! ### Basic lemmas about the store helpers -/

theorem length_filter_not_add {α : Type} (p : α → Bool) (l : List α) :
    (l.filter p).length + (l.filter (fun a => !p a)).length = l.length := by
  induction l with
  | nil => rfl
  | cons a t ih =>
    cases h : p a <;> simp [List.filter_cons, h] <;> omega

theorem fetchOwned_nil (db : DB) (uid : String) : fetchOwned db uid [] = [] := by
  unfold fetchOwned
  have : ∀ it, matchesOwned uid [] it = false := by
    intro it; simp [matchesOwned]
  simp [this]

theorem get_wallet_ok {ws : List Wallet} {uid : String} {ws1 : List Wallet} {w : Wallet}
    (h : get_wallet ws uid = .ok (ws1, w)) :
    w.balance = walletBalance ws uid
    ∧ ws1.filter (fun x => x.user_id == uid) = [w]
    ∧ (ws1 = ws ∨ ws1 = ws ++ [{ user_id := uid, balance := 0 }]) := by
  unfold get_wallet at h
  cases hf : ws.filter (fun x => x.user_id == uid) with
  | nil =>
    rw [hf] at h
    cases h
    refine ⟨by simp [walletBalance, hf], ?_, Or.inr rfl⟩
    rw [List.filter_append, hf]
    simp
  | cons a t =>
    cases t with
    | nil =>
      rw [hf] at h
      cases h
      exact ⟨by simp [walletBalance, hf], hf, Or.inl rfl⟩
    | cons b t2 =>
      rw [hf] at h
      cases h

theorem filter_setBalance_self (ws : List Wallet) (uid : String) (b : Rat) :
    (setBalance ws uid b).filter (fun x => x.user_id == uid)
      = (ws.filter (fun x => x.user_id == uid)).map (fun w => { w with balance := b }) := by
  induction ws with
  | nil => rfl
  | cons a t ih =>
    by_cases h : a.user_id = uid
    · have hs : setBalance (a :: t) uid b = { a with balance := b } :: setBalance t uid b := by
        simp [setBalance, h]
      rw [hs]
      simp [List.filter_cons, h, ih]
    · have hs : setBalance (a :: t) uid b = a :: setBalance t uid b := by
        simp [setBalance, h]
      rw [hs]
      simp [List.filter_cons, h, ih]

theorem filter_setBalance_other (ws : List Wallet) (uid uid' : String) (b : Rat)
    (h : uid' ≠ uid) :
    (setBalance ws uid b).filter (fun x => x.user_id == uid')
      = ws.filter (fun x => x.user_id == uid') := by
  induction ws with
  | nil => rfl
  | cons a t ih =>
    by_cases ha : a.user_id = uid
    · have hne : ¬ a.user_id = uid' := by rw [ha]; exact fun hh => h hh.symm
      have hs : setBalance (a :: t) uid b = { a with balance := b } :: setBalance t uid b := by
        simp [setBalance, ha]
      rw [hs]
      simp [List.filter_cons, hne, ih]
    · have hs : setBalance (a :: t) uid b = a :: setBalance t uid b := by
        simp [setBalance, ha]
      rw [hs]
      simp [List.filter_cons, ih]

theorem walletBalance_setBalance_single {ws : List Wallet} {uid : String} {w : Wallet}
    (b : Rat) (h : ws.filter (fun x => x.user_id == uid) = [w]) :
    walletBalance (setBalance ws uid b) uid = b := by
  simp [walletBalance, filter_setBalance_self, h]

theorem walletBalance_setBalance_other (ws : List Wallet) (uid uid' : String) (b : Rat)
    (h : uid' ≠ uid) :
    walletBalance (setBalance ws uid b) uid' = walletBalance ws uid' := by
  simp [walletBalance, filter_setBalance_other ws uid uid' b h]

theorem walletBalance_append_fresh (ws : List Wallet) (uid uid' : String)
    (h : uid' ≠ uid) :
    walletBalance (ws ++ [{ user_id := uid, balance := 0 }]) uid' = walletBalance ws uid' := by
  have : ([({ user_id := uid, balance := 0 } : Wallet)].filter
      (fun x => x.user_id == uid')) = [] := by
    simp [List.filter_cons]
    exact fun hh => h hh.symm
  simp [walletBalance, List.filter_append, this]

theorem money_phase_ok {ws ws2 : List Wallet} {uid : String} {g r b : Rat}
    (h : money_phase ws uid g r = .ok (ws2, b)) (hg : 0 ≤ g) (hr : 0 ≤ r) :
    b = walletBalance ws uid - g + r
    ∧ walletBalance ws2 uid = b
    ∧ (∀ uid', uid' ≠ uid → walletBalance ws2 uid' = walletBalance ws uid')
    ∧ (0 < g → g ≤ walletBalance ws uid) := by
  unfold money_phase at h
  cases hw : get_wallet ws uid with
  | error e => rw [hw] at h; cases h
  | ok p =>
    obtain ⟨ws1, w⟩ := p
    rw [hw] at h
    dsimp only at h
    obtain ⟨hbal, hfil, hcases⟩ := get_wallet_ok hw
    have hother : ∀ uid', uid' ≠ uid → walletBalance ws1 uid' = walletBalance ws uid' := by
      intro uid' hne
      rcases hcases with hc | hc
      · rw [hc]
      · rw [hc, walletBalance_append_fresh ws uid uid' hne]
    by_cases hgpos : g > 0
    · rw [if_pos hgpos] at h
      by_cases hlow : w.balance < g
      · rw [if_pos hlow] at h; cases h
      · rw [if_neg hlow] at h
        cases h
        constructor
        · by_cases hrpos : r > 0
          · rw [if_pos hrpos, hbal]
          · rw [if_neg hrpos, hbal]
            have : r = 0 := le_antisymm (not_lt.mp hrpos) hr
            rw [this, add_zero]
        refine ⟨?_, ?_, ?_⟩
        · exact walletBalance_setBalance_single _ hfil
        · intro uid' hne
          rw [walletBalance_setBalance_other ws1 uid uid' _ hne, hother uid' hne]
        · intro _
          rw [← hbal]
          exact not_lt.mp hlow
    · rw [if_neg hgpos] at h
      cases h
      have hg0 : g = 0 := le_antisymm (not_lt.mp hgpos) hg
      constructor
      · by_cases hrpos : r > 0
        · rw [if_pos hrpos, hbal, hg0, sub_zero]
        · rw [if_neg hrpos, hbal, hg0, sub_zero]
          have : r = 0 := le_antisymm (not_lt.mp hrpos) hr
          rw [this, add_zero]
      refine ⟨?_, ?_, ?_⟩
      · exact walletBalance_setBalance_single _ hfil
      · intro uid' hne
        rw [walletBalance_setBalance_other ws1 uid uid' _ hne, hother uid' hne]
      · intro hgpos'
        exact absurd hgpos' hgpos

theorem give_phase_ok {db : DB} {uid : String} {req : SwapRequest}
    {gd : List ItemDetail} {rc : Nat}
    (h : give_phase db uid req = .ok (gd, rc)) :
    rc = req.give_items.length
    ∧ (fetchOwned db uid req.give_items).length = req.give_items.length := by
  unfold give_phase at h
  by_cases he : req.give_items.isEmpty
  · rw [if_pos he] at h
    cases h
    have hnil : req.give_items = [] := List.isEmpty_iff.mp he
    rw [hnil, fetchOwned_nil]
    exact ⟨rfl, rfl⟩
  · rw [if_neg he] at h
    dsimp only at h
    by_cases hlen : (fetchOwned db uid req.give_items).length ≠ req.give_items.length
    · rw [if_pos hlen] at h; cases h
    · rw [if_neg hlen] at h
      push_neg at hlen
      cases hs : snapshotDetails (fetchOwned db uid req.give_items) with
      | error e => rw [hs] at h; cases h
      | ok ds => rw [hs] at h; cases h; exact ⟨hlen, hlen⟩

theorem mem_fetchOwned {db : DB} {uid : String} {ids : List Int} {it : Inventory}
    (h : it ∈ fetchOwned db uid ids) :
    it ∈ db.inventory ∧ it.id ∈ ids ∧ it.user_id = uid := by
  unfold fetchOwned at h
  obtain ⟨hmem, hp⟩ := List.mem_filter.mp h
  unfold matchesOwned at hp
  rw [Bool.and_eq_true] at hp
  exact ⟨hmem, by simpa using hp.1, by simpa using hp.2⟩

theorem fetchOwned_id_nodup {db : DB} (uid : String) (ids : List Int)
    (h : (db.inventory.map Inventory.id).Nodup) :
    ((fetchOwned db uid ids).map Inventory.id).Nodup := by
  have hsub : (fetchOwned db uid ids).Sublist db.inventory := List.filter_sublist _
  exact h.sublist (hsub.map Inventory.id)

/-- Core counting fact behind the 404 checks: with distinct primary keys,
the owned-rows fetch can return at most one row per distinct requested id. -/
theorem fetchOwned_length_le_card {db : DB} (uid : String) (ids : List Int)
    (h : (db.inventory.map Inventory.id).Nodup) :
    (fetchOwned db uid ids).length ≤ ids.toFinset.card := by
  have hnd : ((fetchOwned db uid ids).map Inventory.id).Nodup := fetchOwned_id_nodup uid ids h
  have hlen : (fetchOwned db uid ids).length = ((fetchOwned db uid ids).map Inventory.id).length :=
    (List.length_map _ _).symm
  rw [hlen, ← List.toFinset_card_of_nodup hnd]
  apply Finset.card_le_card
  intro x hx
  rw [List.mem_toFinset] at hx ⊢
  obtain ⟨it, hit, hval⟩ := List.mem_map.mp hx
  exact hval ▸ (mem_fetchOwned hit).2.1

/-- If some requested id has no matching owned row, strictly fewer rows come
back than ids were requested. -/
theorem fetchOwned_short_of_bad {db : DB} {uid : String} {ids : List Int} {bad : Int}
    (h : (db.inventory.map Inventory.id).Nodup)
    (hmem : bad ∈ ids)
    (hbad : ∀ it ∈ db.inventory, ¬(it.id = bad ∧ it.user_id = uid)) :
    (fetchOwned db uid ids).length < ids.length := by
  have hnd : ((fetchOwned db uid ids).map Inventory.id).Nodup := fetchOwned_id_nodup uid ids h
  have hlen : (fetchOwned db uid ids).length = ((fetchOwned db uid ids).map Inventory.id).length :=
    (List.length_map _ _).symm
  rw [hlen, ← List.toFinset_card_of_nodup hnd]
  have hsub : ((fetchOwned db uid ids).map Inventory.id).toFinset ⊆ ids.toFinset.erase bad := by
    intro x hx
    rw [List.mem_toFinset] at hx
    obtain ⟨it, hit, hval⟩ := List.mem_map.mp hx
    obtain ⟨hinv, hin, hown⟩ := mem_fetchOwned hit
    refine Finset.mem_erase.mpr ⟨?_, List.mem_toFinset.mpr (hval ▸ hin)⟩
    intro hxbad
    exact hbad it hinv ⟨hval.trans hxbad, hown⟩
  calc ((fetchOwned db uid ids).map Inventory.id).toFinset.card
      ≤ (ids.toFinset.erase bad).card := Finset.card_le_card hsub
    _ < ids.toFinset.card := Finset.card_erase_lt_of_mem (List.mem_toFinset.mpr hmem)
    _ ≤ ids.length := List.toFinset_card_le _

/-- A duplicated requested id also forces strictly fewer rows back than ids
requested (the fetch is de-duplicated by the primary key, the list is not). -/
theorem fetchOwned_short_of_dup {db : DB} (uid : String) {ids : List Int}
    (h : (db.inventory.map Inventory.id).Nodup)
    (hdup : ¬ ids.Nodup) :
    (fetchOwned db uid ids).length < ids.length := by
  have h1 : (fetchOwned db uid ids).length ≤ ids.toFinset.card :=
    fetchOwned_length_le_card uid ids h
  have h2 : ids.toFinset.card < ids.length := by
    have hdl : ids.dedup.length ≤ ids.length := (List.dedup_sublist ids).length_le
    have hne : ids.dedup.length ≠ ids.length := by
      intro heq
      exact hdup (List.dedup_eq_self.mp ((List.dedup_sublist ids).eq_of_length heq))
    have : ids.toFinset.card = ids.dedup.length := List.card_toFinset ids
    omega
  omega

/-! ### The ledger-replay invariant -/

/-- A user's slice of the append-only transaction ledger, in insertion
order. -/
def userTxns (db : DB) (uid : String) : List Transaction :=
  db.transactions.filter (fun t => t.user_id == uid)

/-- The replayed sum of the `amount` fields. -/
def sumAmounts (l : List Transaction) : Rat := (l.map Transaction.amount).sum

/-- Replaying a ledger slice from balance `acc`: every `balance_after`
checkpoint agrees with the running sum. -/
def checkpointsOk (acc : Rat) : List Transaction → Prop
  | [] => True
  | t :: rest => t.balance_after = acc + t.amount ∧ checkpointsOk (acc + t.amount) rest

/-- The audit invariant the spec demands: for every user, the
`balance_after` checkpoints agree with the cumulative replay from an empty
wallet, and the replayed sum equals the current wallet balance. -/
def ledgerOk (db : DB) : Prop :=
  ∀ uid, checkpointsOk 0 (userTxns db uid)
    ∧ walletBalance db.wallets uid = sumAmounts (userTxns db uid)

/-! ### The two handlers that reference missing enum members never commit -/

theorem attr_submit_eq : TransactionType.attr "SUBMIT" = Option.none := by decide

theorem attr_redeem_eq : TransactionType.attr "REDEEM" = Option.none := by decide

/-- `create_inventory_items` always dies before its commit: if value
extraction and the wallet read succeed, the `TransactionType.SUBMIT`
attribute access raises. -/
theorem create_inventory_items_is_error (db : DB) (uid : String)
    (items : List InventoryItemRequest) :
    ∃ e, create_inventory_items db uid items = .error e := by
  unfold create_inventory_items
  cases submitDetails items with
  | error e => exact ⟨e, rfl⟩
  | ok ds =>
    cases get_wallet db.wallets uid with
    | error e => exact ⟨e, rfl⟩
    | ok p =>
      refine ⟨.attributeError "SUBMIT", ?_⟩
      rw [attr_submit_eq]

/-- `delete_inventory_items` always dies inside its try-block: the
`TransactionType.REDEEM` attribute access raises and the except-clause
rolls back and re-raises 500. -/
theorem delete_inventory_items_is_error (db : DB) (uid : String) (item_ids : String) :
    ∃ e, delete_inventory_items db uid item_ids = .error e := by
  unfold delete_inventory_items
  cases parse_ids item_ids with
  | error e => exact ⟨e, rfl⟩
  | ok ids =>
    dsimp only
    by_cases he : ids.isEmpty
    · exact ⟨.noIdsProvided, by rw [if_pos he]⟩
    · rw [if_neg he]
      by_cases hlen : (fetchOwned db uid ids).length ≠ ids.length
      · exact ⟨.notFoundOrNotOwned, by rw [if_pos hlen]⟩
      · rw [if_neg hlen]
        cases snapshotDetails (fetchOwned db uid ids) with
        | error e => exact ⟨e, rfl⟩
        | ok ds =>
          cases get_wallet db.wallets uid with
          | error e => exact ⟨e, rfl⟩
          | ok p =>
            refine ⟨.redeemFailed, ?_⟩
            rw [attr_redeem_eq]

/-! ### Success shape of the swap coordinator -/

/-- Everything a successful `atomic_swap` run determines: which phases
succeeded, that the validated amounts are non-negative, and the exact
committed state and response. -/
theorem atomic_swap_ok_shape {db : DB} {uid : String} {req : SwapRequest}
    {db' : DB} {resp : SwapResponse}
    (h : atomic_swap db uid req = .ok (db', resp)) :
    ∃ gDetails rDetails wallets2 newBal rc,
      give_phase db uid req = .ok (gDetails, rc)
      ∧ receiveDetails req.receive_items = .ok rDetails
      ∧ money_phase db.wallets uid req.give_money req.receive_money = .ok (wallets2, newBal)
      ∧ 0 ≤ req.give_money ∧ 0 ≤ req.receive_money
      ∧ db' = { inventory := removeGiven db uid req ++ newItemsOf db uid req,
                wallets := wallets2,
                transactions := db.transactions
                  ++ [swapTxn uid req gDetails rDetails rc req.receive_items.length newBal],
                nextItemId := db.nextItemId + req.receive_items.length }
      ∧ resp = { message := "Swap completed successfully",
                 removed_items_count := rc,
                 added_items_count := req.receive_items.length,
                 wallet_balance := newBal } := by
  unfold atomic_swap at h
  split at h
  · cases h
  · split at h
    · cases h
    · rename_i hneg
      have hnonneg : 0 ≤ req.give_money ∧ 0 ≤ req.receive_money := by
        constructor <;> by_contra hc <;> simp at hneg <;> push_neg at hc
        · exact absurd hneg.1 (not_le.mpr hc)
        · exact absurd hneg.2 (not_le.mpr hc)
      cases hg : give_phase db uid req with
      | error e => rw [hg] at h; cases h
      | ok pg =>
        obtain ⟨gDetails, rc⟩ := pg
        rw [hg] at h
        dsimp only at h
        cases hr : receiveDetails req.receive_items with
        | error e => rw [hr] at h; cases h
        | ok rDetails =>
          rw [hr] at h
          dsimp only at h
          cases hm : money_phase db.wallets uid req.give_money req.receive_money with
          | error e => rw [hm] at h; cases h
          | ok pm =>
            obtain ⟨wallets2, newBal⟩ := pm
            rw [hm] at h
            dsimp only at h
            cases h
            exact ⟨gDetails, rDetails, wallets2, newBal, rc, rfl, rfl, rfl,
              hnonneg.1, hnonneg.2, rfl, rfl⟩

/-- On any handler error the committed state is unchanged. -/
theorem commitOf_error {α : Type} {db : DB} {r : Except ApiError (DB × α)} {e : ApiError}
    (h : r = .error e) : commitOf db r = db := by
  rw [h]
  rfl

theorem applyOp_submit_eq (db : DB) (uid : String) (items : List InventoryItemRequest) :
    applyOp db (.submit uid items) = db := by
  obtain ⟨e, he⟩ := create_inventory_items_is_error db uid items
  unfold applyOp
  exact commitOf_error he

theorem applyOp_redeem_eq (db : DB) (uid : String) (item_ids : String) :
    applyOp db (.redeem uid item_ids) = db := by
  obtain ⟨e, he⟩ := delete_inventory_items_is_error db uid item_ids
  unfold applyOp
  exact commitOf_error he

/-- Everything a successful `deposit` determines. -/
theorem deposit_ok_shape {db : DB} {uid : String} {a : Rat} {db' : DB} {bal : Rat}
    (h : deposit db uid a = .ok (db', bal)) :
    0 < a
    ∧ bal = walletBalance db.wallets uid + a
    ∧ walletBalance db'.wallets uid = bal
    ∧ (∀ u, u ≠ uid → walletBalance db'.wallets u = walletBalance db.wallets u)
    ∧ ∃ t, db'.transactions = db.transactions ++ [t]
        ∧ t.user_id = uid ∧ t.amount = a ∧ t.balance_after = bal := by
  unfold deposit at h
  split at h
  · cases h
  · rename_i hle
    cases hw : get_wallet db.wallets uid with
    | error e => rw [hw] at h; cases h
    | ok p =>
      obtain ⟨ws1, w⟩ := p
      rw [hw] at h
      dsimp only at h
      cases h
      obtain ⟨hbal, hfil, hcases⟩ := get_wallet_ok hw
      have hother : ∀ u, u ≠ uid → walletBalance ws1 u = walletBalance db.wallets u := by
        intro u hne
        rcases hcases with hc | hc
        · rw [hc]
        · rw [hc, walletBalance_append_fresh db.wallets uid u hne]
      refine ⟨by push_neg at hle; exact hle, by rw [hbal], ?_, ?_, ?_⟩
      · exact walletBalance_setBalance_single _ hfil
      · intro u hne
        rw [walletBalance_setBalance_other ws1 uid u _ hne, hother u hne]
      · exact ⟨_, rfl, rfl, rfl, rfl⟩

/-- Everything a successful `withdraw` determines. -/
theorem withdraw_ok_shape {db : DB} {uid : String} {a : Rat} {db' : DB} {bal : Rat}
    (h : withdraw db uid a = .ok (db', bal)) :
    0 < a
    ∧ a ≤ walletBalance db.wallets uid
    ∧ bal = walletBalance db.wallets uid - a
    ∧ walletBalance db'.wallets uid = bal
    ∧ (∀ u, u ≠ uid → walletBalance db'.wallets u = walletBalance db.wallets u)
    ∧ ∃ t, db'.transactions = db.transactions ++ [t]
        ∧ t.user_id = uid ∧ t.amount = -a ∧ t.balance_after = bal := by
  unfold withdraw at h
  split at h
  · cases h
  · rename_i hle
    cases hw : get_wallet db.wallets uid with
    | error e => rw [hw] at h; cases h
    | ok p =>
      obtain ⟨ws1, w⟩ := p
      rw [hw] at h
      dsimp only at h
      obtain ⟨hbal, hfil, hcases⟩ := get_wallet_ok hw
      split at h
      · cases h
      · rename_i hlow
        cases h
        have hother : ∀ u, u ≠ uid → walletBalance ws1 u = walletBalance db.wallets u := by
          intro u hne
          rcases hcases with hc | hc
          · rw [hc]
          · rw [hc, walletBalance_append_fresh db.wallets uid u hne]
        refine ⟨by push_neg at hle; exact hle, by rw [← hbal]; exact not_lt.mp hlow,
          by rw [hbal], ?_, ?_, ?_⟩
        · exact walletBalance_setBalance_single _ hfil
        · intro u hne
          rw [walletBalance_setBalance_other ws1 uid u _ hne, hother u hne]
        · exact ⟨_, rfl, rfl, rfl, rfl⟩

/-- The no-negative-balance invariant. -/
def balancesNonneg (db : DB) : Prop := ∀ uid, 0 ≤ walletBalance db.wallets uid

theorem balancesNonneg_applyOp {db : DB} (hdb : balancesNonneg db) (op : Op) :
    balancesNonneg (applyOp db op) := by
  cases op with
  | deposit uid a =>
    dsimp only [applyOp]
    cases h : deposit db uid a with
    | error e => exact hdb
    | ok p =>
      obtain ⟨db', bal⟩ := p
      show balancesNonneg db'
      obtain ⟨hpos, hbal, hself, hother, _⟩ := deposit_ok_shape h
      intro u
      by_cases hu : u = uid
      · subst hu
        rw [hself, hbal]
        have := hdb u
        linarith
      · rw [hother u hu]
        exact hdb u
  | withdraw uid a =>
    dsimp only [applyOp]
    cases h : withdraw db uid a with
    | error e => exact hdb
    | ok p =>
      obtain ⟨db', bal⟩ := p
      show balancesNonneg db'
      obtain ⟨hpos, hle, hbal, hself, hother, _⟩ := withdraw_ok_shape h
      intro u
      by_cases hu : u = uid
      · subst hu
        rw [hself, hbal]
        linarith
      · rw [hother u hu]
        exact hdb u
  | swap uid req =>
    dsimp only [applyOp]
    cases h : atomic_swap db uid req with
    | error e => exact hdb
    | ok p =>
      obtain ⟨db', resp⟩ := p
      show balancesNonneg db'
      obtain ⟨gd, rd, ws2, nb, rc, _, _, hm, hg, hr, hdb', _⟩ := atomic_swap_ok_shape h
      obtain ⟨hnb, hself, hother, hcheck⟩ := money_phase_ok hm hg hr
      intro u
      by_cases hu : u = uid
      · subst hu
        rw [hdb']
        show (0 : Rat) ≤ walletBalance ws2 u
        rw [hself, hnb]
        rcases lt_or_eq_of_le hg with hglt | hgeq
        · have := hcheck hglt
          linarith
        · have := hdb u
          rw [← hgeq]
          linarith
      · rw [hdb']
        show (0 : Rat) ≤ walletBalance ws2 u
        rw [hother u hu]
        exact hdb u
  | submit uid items => rw [applyOp_submit_eq]; exact hdb
  | redeem uid ids => rw [applyOp_redeem_eq]; exact hdb

theorem balancesNonneg_initDB : balancesNonneg initDB := by
  intro uid
  exact le_refl 0

theorem balancesNonneg_foldl (ops : List Op) (db : DB) (hdb : balancesNonneg db) :
    balancesNonneg (ops.foldl applyOp db) := by
  induction ops generalizing db with
  | nil => exact hdb
  | cons op rest ih => exact ih _ (balancesNonneg_applyOp hdb op)

/-! ### Validation and 404 helper lemmas -/

theorem swap_noop_cond_false {req : SwapRequest}
    (h : req.give_items ≠ [] ∨ req.receive_items ≠ [] ∨ req.give_money ≠ 0 ∨ req.receive_money ≠ 0) :
    (req.give_items.isEmpty && req.receive_items.isEmpty
      && decide (req.give_money = 0) && decide (req.receive_money = 0)) = false := by
  rcases h with h | h | h | h <;> simp [List.isEmpty_iff, h]

theorem swap_neg_cond_false {req : SwapRequest}
    (hg : 0 ≤ req.give_money) (hr : 0 ≤ req.receive_money) :
    (decide (req.give_money < 0) || decide (req.receive_money < 0)) = false := by
  simp [not_lt.mpr hg, not_lt.mpr hr]

theorem atomic_swap_fetch_mismatch {db : DB} {uid : String} {req : SwapRequest}
    (hne : req.give_items ≠ [])
    (hg : 0 ≤ req.give_money) (hr : 0 ≤ req.receive_money)
    (hshort : (fetchOwned db uid req.give_items).length ≠ req.give_items.length) :
    atomic_swap db uid req = .error .notFoundOrNotOwned := by
  unfold atomic_swap
  rw [if_neg (by rw [swap_noop_cond_false (Or.inl hne)]; exact Bool.false_ne_true)]
  rw [if_neg (by rw [swap_neg_cond_false hg hr]; exact Bool.false_ne_true)]
  have hgive : give_phase db uid req = .error .notFoundOrNotOwned := by
    unfold give_phase
    rw [if_neg (by simpa [List.isEmpty_iff] using hne)]
    dsimp only
    rw [if_pos hshort]
  rw [hgive]

theorem delete_fetch_mismatch {db : DB} {uid s : String} {ids : List Int}
    (hparse : parse_ids s = .ok ids) (hne : ids ≠ [])
    (hshort : (fetchOwned db uid ids).length ≠ ids.length) :
    delete_inventory_items db uid s = .error .notFoundOrNotOwned := by
  unfold delete_inventory_items
  rw [hparse]
  dsimp only
  rw [if_neg (by simpa [List.isEmpty_iff] using hne)]
  rw [if_pos hshort]

theorem newItemsOf_mem {db : DB} {uid : String} {req : SwapRequest} {it : Inventory}
    (h : it ∈ newItemsOf db uid req) :
    it.user_id = uid ∧ it.status = Status.vaulted := by
  unfold newItemsOf at h
  obtain ⟨p, _, hp⟩ := List.mem_map.mp h
  rw [← hp]
  exact ⟨rfl, rfl⟩

theorem newItemsOf_length (db : DB) (uid : String) (req : SwapRequest) :
    (newItemsOf db uid req).length = req.receive_items.length := by
  unfold newItemsOf
  rw [List.length_map, List.enum_length]

/-! ### Claim theorems -/

/-- The `Numeric(10, 2)` column coercion.  `models.py` declares
`Transaction.amount` and `Transaction.balance_after` with
`sa_column=Column(Numeric(10, 2))`, so the store rounds those values to two
decimal places when the row is written at commit; `Wallet.balance` is a
plain `float` field (a double-precision float column) and is stored
unrounded.  `round` here is round-half-up; the inputs used below are not
ties, so every conventional tie-breaking rule gives the same result. -/
def numeric2 (q : Rat) : Rat := ((round (q * 100) : Int) : Rat) / 100

/-- A transaction row as actually persisted: both `Numeric(10, 2)` money
columns pass through the column coercion at commit. -/
def committedTxn (t : Transaction) : Transaction :=
  { t with amount := numeric2 t.amount, balance_after := numeric2 t.balance_after }

/-- The database as persisted by the store: transaction rows are subject to
the `Numeric(10, 2)` column coercion, wallet balances are not. -/
def committedDB (db : DB) : DB :=
  { db with transactions := db.transactions.map committedTxn }

/-- A deposit of 0.006: accepted by the handler (its only validation is
`amount > 0`), but not a whole number of cents. -/
def c4Amt : Rat := mkRat 6 1000

/-- The store state persisted after `deposit(0.006)` against the empty
database. -/
def c4DB : DB := committedDB (commitOf initDB (deposit initDB "alice" c4Amt))

/-- C4 (code bug): the deposit of 0.006 commits a wallet balance of 0.006
(unrounded float column) while the transaction row's `amount` and
`balance_after` are rounded to 0.01 by their `Numeric(10, 2)` columns — so
the persisted `balance_after` differs from the wallet balance committed in
the same atomic unit, the replayed sum of `amount` (0.01) differs from the
wallet balance (0.006), and the audit invariant `ledgerOk` fails on the
persisted state. -/
theorem C4_subcent_deposit_breaks_replay :
    walletBalance c4DB.wallets "alice" = 3 / 500
    ∧ c4DB.transactions.map Transaction.amount = [1 / 100]
    ∧ c4DB.transactions.map Transaction.balance_after = [1 / 100]
    ∧ sumAmounts (userTxns c4DB "alice") ≠ walletBalance c4DB.wallets "alice"
    ∧ ¬ ledgerOk c4DB := by
  have hround : numeric2 c4Amt = 1 / 100 := by
    unfold numeric2 c4Amt
    norm_num [Rat.mkRat_eq_div, round_eq]
  have hround0 : numeric2 ((0 : Rat) + c4Amt) = 1 / 100 := by
    rw [zero_add]
    exact hround
  have hwal : walletBalance c4DB.wallets "alice" = 3 / 500 := by
    show (0 : Rat) + c4Amt = 3 / 500
    unfold c4Amt
    norm_num [Rat.mkRat_eq_div]
  have hamt : c4DB.transactions.map Transaction.amount = [1 / 100] := by
    show [numeric2 c4Amt] = [1 / 100]
    rw [hround]
  have hba : c4DB.transactions.map Transaction.balance_after = [1 / 100] := by
    show [numeric2 ((0 : Rat) + c4Amt)] = [1 / 100]
    rw [hround0]
  have hsum : sumAmounts (userTxns c4DB "alice") = 1 / 100 := by
    show numeric2 c4Amt + 0 = 1 / 100
    rw [hround, add_zero]
  have hneq : sumAmounts (userTxns c4DB "alice") ≠ walletBalance c4DB.wallets "alice" := by
    rw [hsum, hwal]
    norm_num
  refine ⟨hwal, hamt, hba, hneq, ?_⟩
  intro h
  exact hneq ((h "alice").2.symm)

/-- C5: starting from an empty store (wallets created at balance 0), no
sequence of deposit, withdraw, swap, submit or redeem requests can drive any
wallet balance negative. -/
theorem C5_balance_never_negative (ops : List Op) (uid : String) :
    0 ≤ walletBalance (run ops).wallets uid :=
  balancesNonneg_foldl ops initDB balancesNonneg_initDB uid

/-- C9: swap preconditions are validated fail-fast: an all-empty request is
rejected as a no-op swap, a request with a negative money amount is rejected
as a validation error, and every rejected swap leaves the committed state
untouched. -/
theorem C9_failfast_validation (db : DB) (uid : String) (req : SwapRequest) :
    (req.give_items = [] → req.receive_items = [] →
      req.give_money = 0 → req.receive_money = 0 →
      atomic_swap db uid req = .error .noopSwap)
    ∧ ((req.give_money < 0 ∨ req.receive_money < 0) →
      atomic_swap db uid req = .error .negativeMoney)
    ∧ (∀ e, atomic_swap db uid req = .error e → applyOp db (.swap uid req) = db) := by
  refine ⟨?_, ?_, ?_⟩
  · intro h1 h2 h3 h4
    unfold atomic_swap
    rw [if_pos (by simp [h1, h2, h3, h4])]
  · intro hneg
    have hne : req.give_money ≠ 0 ∨ req.receive_money ≠ 0 := by
      rcases hneg with h | h
      · exact Or.inl (ne_of_lt h)
      · exact Or.inr (ne_of_lt h)
    unfold atomic_swap
    rw [if_neg (by rw [swap_noop_cond_false (Or.inr (Or.inr hne))]; exact Bool.false_ne_true)]
    rw [if_pos (by rcases hneg with h | h <;> simp [h])]
  · intro e he
    dsimp only [applyOp]
    rw [he]
    rfl

/-- C9 witness: the two rejections at concrete inputs. -/
theorem C9_failfast_validation_witness :
    atomic_swap initDB "alice"
      { give_items := [], receive_items := [], give_money := 0, receive_money := 0 }
      = .error .noopSwap
    ∧ atomic_swap initDB "alice"
      { give_items := [], receive_items := [], give_money := -1, receive_money := 0 }
      = .error .negativeMoney :=
  ⟨(C9_failfast_validation initDB "alice"
      { give_items := [], receive_items := [], give_money := 0, receive_money := 0 }).1
      rfl rfl rfl rfl,
   (C9_failfast_validation initDB "alice"
      { give_items := [], receive_items := [], give_money := -1, receive_money := 0 }).2.1
      (Or.inl (by norm_num))⟩

/-- C2: a swap that reaches the balance check (items owned and snapshotted)
with `give_money > 0` and `wallet.balance < give_money` aborts with the
insufficient-balance rejection, and the committed state is unchanged — no
deletion, insertion, balance change or transaction survives, even though
the given items were already fetched and marked for deletion. -/
theorem C2_insufficient_funds_aborts {db : DB} {uid : String} {req : SwapRequest}
    (hg : 0 < req.give_money) (hr : 0 ≤ req.receive_money)
    (hbal : walletBalance db.wallets uid < req.give_money)
    (hfetch : (fetchOwned db uid req.give_items).length = req.give_items.length)
    (hsnap : ∃ ds, snapshotDetails (fetchOwned db uid req.give_items) = .ok ds)
    (hrecv : ∃ ds, receiveDetails req.receive_items = .ok ds)
    (hw : ∃ ws1 w, get_wallet db.wallets uid = .ok (ws1, w)) :
    atomic_swap db uid req = .error .insufficientBalance
    ∧ applyOp db (.swap uid req) = db := by
  have hmain : atomic_swap db uid req = .error .insufficientBalance := by
    unfold atomic_swap
    rw [if_neg (by
      rw [swap_noop_cond_false (Or.inr (Or.inr (Or.inl (ne_of_gt hg))))]
      exact Bool.false_ne_true)]
    rw [if_neg (by rw [swap_neg_cond_false (le_of_lt hg) hr]; exact Bool.false_ne_true)]
    have hgive : ∃ gds rc, give_phase db uid req = .ok (gds, rc) := by
      unfold give_phase
      by_cases he : req.give_items.isEmpty
      · rw [if_pos he]
        exact ⟨[], 0, rfl⟩
      · rw [if_neg he]
        dsimp only
        rw [if_neg (fun hne => hne hfetch)]
        obtain ⟨ds, hds⟩ := hsnap
        rw [hds]
        exact ⟨ds, _, rfl⟩
    obtain ⟨gds, rc, hgive⟩ := hgive
    rw [hgive]
    dsimp only
    obtain ⟨rds, hrds⟩ := hrecv
    rw [hrds]
    dsimp only
    have hmoney : money_phase db.wallets uid req.give_money req.receive_money
        = .error .insufficientBalance := by
      unfold money_phase
      obtain ⟨ws1, w, hwp⟩ := hw
      rw [hwp]
      dsimp only
      rw [if_pos hg]
      rw [if_pos (by rw [(get_wallet_ok hwp).1]; exact hbal)]
    rw [hmoney]
  refine ⟨hmain, ?_⟩
  dsimp only [applyOp]
  rw [hmain]
  rfl

def c2DB : DB :=
  { inventory := [{ id := 1, user_id := "alice", name := "Pikachu", image_url := Option.none,
                    status := Status.vaulted, collectible_type := Option.some "card",
                    external_id := Option.none, external_api := Option.none,
                    item_data := Option.none, notes := Option.none }],
    wallets := [{ user_id := "alice", balance := 10 }],
    transactions := [], nextItemId := 2 }

def c2Req : SwapRequest :=
  { give_items := [1], receive_items := [], give_money := 30, receive_money := 0 }

/-- C2 witness: balance 10, give_money 30, one owned item — the swap fails
with the insufficiency rejection and the state is untouched. -/
theorem C2_insufficient_funds_aborts_witness :
    atomic_swap c2DB "alice" c2Req = .error .insufficientBalance
    ∧ applyOp c2DB (.swap "alice" c2Req) = c2DB :=
  C2_insufficient_funds_aborts (by decide) (by decide) (by decide)
    (by rfl) ⟨_, by rfl⟩ ⟨_, by rfl⟩ ⟨_, _, by rfl⟩

/-- C3: a swap or a redemption whose id list references an item that does
not exist or belongs to another user fails with the not-found/not-owned
rejection (the count of fetched owned rows falls short of the id count), and
the committed state is unchanged.  `hnodup` is the primary-key uniqueness of
the inventory table. -/
theorem C3_unowned_reference_404 {db : DB} {uid : String}
    (hnodup : (db.inventory.map Inventory.id).Nodup) :
    (∀ req : SwapRequest, 0 ≤ req.give_money → 0 ≤ req.receive_money →
      (∃ bad ∈ req.give_items, ∀ it ∈ db.inventory, ¬(it.id = bad ∧ it.user_id = uid)) →
      atomic_swap db uid req = .error .notFoundOrNotOwned
        ∧ applyOp db (.swap uid req) = db)
    ∧ (∀ s : String, ∀ ids : List Int, parse_ids s = .ok ids →
      (∃ bad ∈ ids, ∀ it ∈ db.inventory, ¬(it.id = bad ∧ it.user_id = uid)) →
      delete_inventory_items db uid s = .error .notFoundOrNotOwned
        ∧ applyOp db (.redeem uid s) = db) := by
  constructor
  · intro req hg hr hex
    obtain ⟨bad, hmem, hbad⟩ := hex
    have hshort := fetchOwned_short_of_bad hnodup hmem hbad
    have hne : req.give_items ≠ [] := fun hnil => by simp [hnil] at hmem
    have hmain := atomic_swap_fetch_mismatch hne hg hr (Nat.ne_of_lt hshort)
    exact ⟨hmain, by dsimp only [applyOp]; rw [hmain]; rfl⟩
  · intro s ids hparse hex
    obtain ⟨bad, hmem, hbad⟩ := hex
    have hshort := fetchOwned_short_of_bad hnodup hmem hbad
    have hne : ids ≠ [] := fun hnil => by simp [hnil] at hmem
    have hmain := delete_fetch_mismatch hparse hne (Nat.ne_of_lt hshort)
    exact ⟨hmain, by dsimp only [applyOp]; rw [hmain]; rfl⟩

def c3DB : DB :=
  { inventory := [{ id := 1, user_id := "alice", name := "Pikachu", image_url := Option.none,
                    status := Status.vaulted, collectible_type := Option.some "card",
                    external_id := Option.none, external_api := Option.none,
                    item_data := Option.none, notes := Option.none }],
    wallets := [], transactions := [], nextItemId := 2 }

def c3Req : SwapRequest :=
  { give_items := [99], receive_items := [], give_money := 0, receive_money := 0 }

/-- C3 witness: referencing the nonexistent item 99 fails both in a swap and
in a redemption, leaving the state untouched. -/
theorem C3_unowned_reference_404_witness :
    (atomic_swap c3DB "alice" c3Req = .error .notFoundOrNotOwned
      ∧ applyOp c3DB (.swap "alice" c3Req) = c3DB)
    ∧ (delete_inventory_items c3DB "alice" "99" = .error .notFoundOrNotOwned
      ∧ applyOp c3DB (.redeem "alice" "99") = c3DB) :=
  ⟨(@C3_unowned_reference_404 c3DB "alice" (by decide)).1 c3Req (by decide) (by decide)
      ⟨99, by decide, by decide⟩,
   (@C3_unowned_reference_404 c3DB "alice" (by decide)).2 "99" [99] (by rfl)
      ⟨99, by decide, by decide⟩⟩

/-- C10: because the requested id list is compared by length against the
de-duplicated set of fetched rows, any swap or redemption whose id list
contains a duplicate fails with the 404 not-found/not-owned count-mismatch
rejection — even when every referenced item exists and is owned by the
caller — and no mutation is committed. -/
theorem C10_duplicate_ids_404 {db : DB} {uid : String}
    (hnodup : (db.inventory.map Inventory.id).Nodup) :
    (∀ req : SwapRequest, 0 ≤ req.give_money → 0 ≤ req.receive_money →
      ¬req.give_items.Nodup →
      atomic_swap db uid req = .error .notFoundOrNotOwned
        ∧ applyOp db (.swap uid req) = db)
    ∧ (∀ s : String, ∀ ids : List Int, parse_ids s = .ok ids → ¬ids.Nodup →
      delete_inventory_items db uid s = .error .notFoundOrNotOwned
        ∧ applyOp db (.redeem uid s) = db)
    ∧ ApiError.statusCode .notFoundOrNotOwned = 404 := by
  refine ⟨?_, ?_, rfl⟩
  · intro req hg hr hdup
    have hshort := fetchOwned_short_of_dup uid hnodup hdup
    have hne : req.give_items ≠ [] := fun hnil => hdup (hnil ▸ List.nodup_nil)
    have hmain := atomic_swap_fetch_mismatch hne hg hr (Nat.ne_of_lt hshort)
    exact ⟨hmain, by dsimp only [applyOp]; rw [hmain]; rfl⟩
  · intro s ids hparse hdup
    have hshort := fetchOwned_short_of_dup uid hnodup hdup
    have hne : ids ≠ [] := fun hnil => hdup (hnil ▸ List.nodup_nil)
    have hmain := delete_fetch_mismatch hparse hne (Nat.ne_of_lt hshort)
    exact ⟨hmain, by dsimp only [applyOp]; rw [hmain]; rfl⟩

def c10DB : DB :=
  { inventory := [{ id := 7, user_id := "alice", name := "Charizard", image_url := Option.none,
                    status := Status.vaulted, collectible_type := Option.some "card",
                    external_id := Option.none, external_api := Option.none,
                    item_data := Option.none, notes := Option.none }],
    wallets := [], transactions := [], nextItemId := 8 }

def c10Req : SwapRequest :=
  { give_items := [7, 7], receive_items := [], give_money := 0, receive_money := 0 }

/-- C10 witness: item 7 exists and is owned by the caller, yet the duplicate
lists `[7, 7]` and `"7,7"` are both rejected with the 404 count mismatch. -/
theorem C10_duplicate_ids_404_witness :
    (atomic_swap c10DB "alice" c10Req = .error .notFoundOrNotOwned
      ∧ applyOp c10DB (.swap "alice" c10Req) = c10DB)
    ∧ (delete_inventory_items c10DB "alice" "7,7" = .error .notFoundOrNotOwned
      ∧ applyOp c10DB (.redeem "alice" "7,7") = c10DB) :=
  ⟨(@C10_duplicate_ids_404 c10DB "alice" (by decide)).1 c10Req (by decide) (by decide)
      (by decide),
   (@C10_duplicate_ids_404 c10DB "alice" (by decide)).2.1 "7,7" [7, 7] (by rfl)
      (by decide)⟩

/-- C1: every successful swap commits the balance
`oldBalance - giveMoney + receiveMoney`, removes exactly `len(give_items)`
inventory rows and adds exactly `len(receive_items)` rows, every added row
is owned by the acting user with status vaulted, and the response reports
these counts and the new balance. -/
theorem C1_swap_success_postconditions {db : DB} {uid : String} {req : SwapRequest}
    {db' : DB} {resp : SwapResponse}
    (h : atomic_swap db uid req = .ok (db', resp)) :
    resp.wallet_balance = walletBalance db.wallets uid - req.give_money + req.receive_money
    ∧ walletBalance db'.wallets uid = resp.wallet_balance
    ∧ resp.removed_items_count = req.give_items.length
    ∧ resp.added_items_count = req.receive_items.length
    ∧ db'.inventory.length + req.give_items.length
        = db.inventory.length + req.receive_items.length
    ∧ (∀ it ∈ db'.inventory,
        it ∈ db.inventory ∨ (it.user_id = uid ∧ it.status = Status.vaulted)) := by
  obtain ⟨gd, rd, ws2, nb, rc, hgive, hrecv, hm, hg, hr, hdb', hresp⟩ := atomic_swap_ok_shape h
  obtain ⟨hnb, hself, hother, _⟩ := money_phase_ok hm hg hr
  obtain ⟨hrc, hfetch⟩ := give_phase_ok hgive
  subst hdb'
  subst hresp
  dsimp only
  refine ⟨hnb, hself, hrc, rfl, ?_, ?_⟩
  · have hpart := length_filter_not_add (matchesOwned uid req.give_items) db.inventory
    have hlen2 := newItemsOf_length db uid req
    have hfetch2 : (db.inventory.filter (matchesOwned uid req.give_items)).length
        = req.give_items.length := hfetch
    dsimp only [removeGiven]
    rw [List.length_append, hlen2]
    omega
  · intro it hit
    rcases List.mem_append.mp hit with hold | hnew
    · exact Or.inl (List.mem_filter.mp hold).1
    · exact Or.inr (newItemsOf_mem hnew)

def c1DB : DB :=
  { inventory := [{ id := 7, user_id := "alice", name := "Charizard", image_url := Option.none,
                    status := Status.vaulted, collectible_type := Option.some "card",
                    external_id := Option.none, external_api := Option.none,
                    item_data := Option.none, notes := Option.none }],
    wallets := [{ user_id := "alice", balance := 50 }],
    transactions := [], nextItemId := 8 }

def c1Req : SwapRequest :=
  { give_items := [7], receive_items := [], give_money := 30, receive_money := 0 }

def c1Out : DB × SwapResponse :=
  ((atomic_swap c1DB "alice" c1Req).toOption).getD
    (c1DB, { message := "", removed_items_count := 0, added_items_count := 0, wallet_balance := 0 })

/-- C1 witness: the spec scenario — balance 50, give 30, one owned item,
nothing received — succeeds with balance 20, one removal and no addition,
and the committed trade transaction has amount -30 and balance_after 20. -/
theorem C1_swap_success_postconditions_witness :
    (c1Out.2.wallet_balance
        = walletBalance c1DB.wallets "alice" - c1Req.give_money + c1Req.receive_money
      ∧ walletBalance c1Out.1.wallets "alice" = c1Out.2.wallet_balance
      ∧ c1Out.2.removed_items_count = c1Req.give_items.length
      ∧ c1Out.2.added_items_count = c1Req.receive_items.length
      ∧ c1Out.1.inventory.length + c1Req.give_items.length
          = c1DB.inventory.length + c1Req.receive_items.length
      ∧ (∀ it ∈ c1Out.1.inventory,
          it ∈ c1DB.inventory ∨ (it.user_id = "alice" ∧ it.status = Status.vaulted)))
    ∧ c1Out.2.wallet_balance = 20
    ∧ c1Out.2.removed_items_count = 1
    ∧ c1Out.2.added_items_count = 0
    ∧ (c1Out.1.transactions.map Transaction.amount) = [-30]
    ∧ (c1Out.1.transactions.map Transaction.balance_after) = [20] :=
  ⟨@C1_swap_success_postconditions c1DB "alice" c1Req c1Out.1 c1Out.2 (by rfl),
   by show (50 : Rat) - 30 = 20; norm_num,
   by rfl, by rfl,
   by show [(0 : Rat) - 30] = [-30]; norm_num,
   by show [(50 : Rat) - 30] = [20]; norm_num⟩

def c6Items : List InventoryItemRequest :=
  [{ name := "A", image_url := Option.none, collectible_type := "card",
     external_id := Option.none, external_api := Option.none,
     item_data := Option.some (.dict [("market_price", .float 5)]) },
   { name := "B", image_url := Option.none, collectible_type := "card",
     external_id := Option.none, external_api := Option.none,
     item_data := Option.some (.dict [("market_price", .float 10)]) }]

/-- C6 (code bug): submission can never insert a `submit` transaction —
`models.TransactionType` has no `SUBMIT` member, so every submission dies
with an unhandled `AttributeError` (HTTP 500) before commit; in particular
the spec's two-item scenario commits nothing instead of one submit
transaction with `items_count=2`. -/
theorem C6_submit_always_fails :
    (∀ db uid items, ∃ e, create_inventory_items db uid items = .error e)
    ∧ create_inventory_items initDB "alice" c6Items = .error (.attributeError "SUBMIT")
    ∧ applyOp initDB (.submit "alice" c6Items) = initDB :=
  ⟨create_inventory_items_is_error, by rfl, by rfl⟩

def c7DB : DB :=
  { inventory := [{ id := 1, user_id := "alice", name := "Pikachu", image_url := Option.none,
                    status := Status.vaulted, collectible_type := Option.some "card",
                    external_id := Option.none, external_api := Option.none,
                    item_data := Option.none, notes := Option.none }],
    wallets := [], transactions := [], nextItemId := 2 }

/-- C7 (code bug): redemption can never insert a `redeem` transaction or
delete anything — `models.TransactionType` has no `REDEEM` member, so the
`AttributeError` inside the try-block is caught, the unit rolls back, and
the caller gets the 500 "Failed to redeem items"; redeeming an owned item
leaves the committed state untouched. -/
theorem C7_redeem_always_fails :
    (∀ db uid ids, ∃ e, delete_inventory_items db uid ids = .error e)
    ∧ delete_inventory_items c7DB "alice" "1" = .error .redeemFailed
    ∧ applyOp c7DB (.redeem "alice" "1") = c7DB :=
  ⟨delete_inventory_items_is_error, by rfl, by rfl⟩

def c8Item : Inventory :=
  { id := 1, user_id := "alice", name := "Mystery", image_url := Option.none,
    status := Status.vaulted, collectible_type := Option.some "card",
    external_id := Option.none, external_api := Option.none,
    item_data := Option.some (.dict [("market_price", .list [.int 1])]),
    notes := Option.none }

def c8DB : DB :=
  { inventory := [c8Item], wallets := [{ user_id := "alice", balance := 0 }],
    transactions := [], nextItemId := 2 }

def c8Req : SwapRequest :=
  { give_items := [1], receive_items := [], give_money := 0, receive_money := 0 }

/-- C8 counterexample: a truthy non-numeric `market_price` (here a list) is
not defaulted to zero — `float(card_value)` raises, and the enclosing swap
fails with an unhandled 500 instead of proceeding with value 0. -/
theorem C8_truthy_nonnumeric_fails :
    cardValue c8Item.item_data = .error .floatError
    ∧ atomic_swap c8DB "alice" c8Req = .error .floatError :=
  ⟨by rfl, by rfl⟩

/-- C8 (amended): the declared-value extraction defaults to zero — without
failing the operation — when the blob is missing, when it is not a mapping,
when the `market_price` key is absent, and when the stored value is falsy;
a truthy value that `float()` cannot convert, however, raises. -/
theorem C8_defensive_value_extraction (blob : Option PyVal) :
    (blob = Option.none → cardValue blob = .ok 0)
    ∧ (∀ d, blob = Option.some d → isDict d = false → cardValue blob = .ok 0)
    ∧ (∀ d, blob = Option.some d → isDict d = true →
        dictLookup d "market_price" = Option.none → cardValue blob = .ok 0)
    ∧ (∀ d v, blob = Option.some d → dictLookup d "market_price" = Option.some v →
        truthy v = false → cardValue blob = .ok 0) := by
  refine ⟨?_, ?_, ?_, ?_⟩
  · intro h
    rw [h]
    rfl
  · intro d h hdict
    rw [h]
    unfold cardValue
    dsimp only
    rw [show (truthy d && isDict d) = false by rw [hdict]; exact Bool.and_false _]
    rfl
  · intro d h hdict hlook
    rw [h]
    unfold cardValue
    dsimp only
    by_cases ht : truthy d
    · rw [show (truthy d && isDict d) = true by rw [ht, hdict]; rfl]
      dsimp only [dictGet]
      rw [hlook]
      rfl
    · rw [show (truthy d && isDict d) = false by rw [Bool.eq_false_iff.mpr ht]; rfl]
      rfl
  · intro d v h hlook hfalsy
    rw [h]
    unfold cardValue
    dsimp only
    by_cases hc : (truthy d && isDict d) = true
    · rw [hc]
      dsimp only [dictGet]
      rw [hlook]
      dsimp only [Option.getD]
      rw [hfalsy]
      rfl
    · rw [Bool.eq_false_iff.mpr hc]
      rfl

/-- C8 amended witness: the four defensive cases at concrete blobs. -/
theorem C8_defensive_value_extraction_witness :
    cardValue Option.none = .ok 0
    ∧ cardValue (Option.some (PyVal.list [.int 1])) = .ok 0
    ∧ cardValue (Option.some (PyVal.dict [("grade", .str "PSA 10")])) = .ok 0
    ∧ cardValue (Option.some (PyVal.dict [("market_price", .str "")])) = .ok 0 :=
  ⟨(C8_defensive_value_extraction Option.none).1 rfl,
   (C8_defensive_value_extraction (Option.some (PyVal.list [.int 1]))).2.1 _ rfl rfl,
   (C8_defensive_value_extraction
      (Option.some (PyVal.dict [("grade", .str "PSA 10")]))).2.2.1 _ rfl rfl (by rfl),
   (C8_defensive_value_extraction
      (Option.some (PyVal.dict [("market_price", .str "")]))).2.2.2 _ _ rfl (by rfl) (by rfl)⟩

end Bonfire
